import Mathlib

/-!
Verification development for the merge-ai-service RAG backend.

Shallow embedding of the chunking service, vector-store operations,
document processor, retrieval orchestrator and ingestion routes,
with theorems settling the specification claims.
Text is modelled as `List Char`; scores as rationals; external
collaborators (embedder, LLM, Qdrant similarity, S3 download,
langchain splitter, uuid generation) are oracle parameters.
-/

/-- Text is modelled as a list of characters. -/
abbrev Text := List Char

/-- Python whitespace characters (the ASCII part of `str.strip` / regex `\s`). -/
def isPyWs (c : Char) : Bool :=
  c = ' ' || c = '\t' || c = '\n' || c = '\r' || c = '\x0b' || c = '\x0c'

/-- Python `str.strip()`: drop leading and trailing whitespace. -/
def pyStrip (cs : Text) : Text :=
  ((cs.dropWhile isPyWs).reverse.dropWhile isPyWs).reverse

/-- Python `str.split(sep)` for a single-character separator. -/
def splitOnChar (sep : Char) : Text → List Text
  | [] => [[]]
  | c :: rest =>
    let r := splitOnChar sep rest
    if c = sep then [] :: r
    else
      match r with
      | [] => [[c]]
      | h :: t => (c :: h) :: t

/-- Python `'\n'.join(lines)`. -/
def joinLines (lines : List Text) : Text :=
  (lines.intersperse ['\n']).flatten

/-- Python `str.upper()` (ASCII part). -/
def pyUpper (s : String) : String := ⟨s.data.map Char.toUpper⟩

/-- ASCII uppercase letter, the regex class `[A-Z]`. -/
def isAZ (c : Char) : Bool := 'A' ≤ c && c ≤ 'Z'

/-- The regex class `[A-Z\s]`. -/
def inCapsWs (c : Char) : Bool := isAZ c || isPyWs c

/-- Matcher for `^#{1,6}\s+(.+)$` (Markdown headings); returns capture group 1. -/
def matchMarkdown (cs : Text) : Option Text :=
  let n := (cs.takeWhile (· = '#')).length
  if 1 ≤ n ∧ n ≤ 6 then
    let t := cs.drop n
    let w := (t.takeWhile isPyWs).length
    let body := t.drop w
    if w = 0 then none
    else if body ≠ [] then some body
    else if 2 ≤ w then some (t.drop (w - 1))
    else none
  else none

/-- Matcher for `^\[Page \d+\]$`; returns the whole match. -/
def matchPageMarker (cs : Text) : Option Text :=
  if cs.take 6 = "[Page ".toList then
    let rest := cs.drop 6
    let d := rest.takeWhile (·.isDigit)
    if d ≠ [] ∧ rest.drop d.length = [']'] then some cs else none
  else none

/-- Matcher for `^\[Slide \d+\]$`; returns the whole match. -/
def matchSlideMarker (cs : Text) : Option Text :=
  if cs.take 7 = "[Slide ".toList then
    let rest := cs.drop 7
    let d := rest.takeWhile (·.isDigit)
    if d ≠ [] ∧ rest.drop d.length = [']'] then some cs else none
  else none

/-- Matcher for `^[A-Z][A-Z\s]{5,50}$` (ALL-CAPS headings); returns the whole match. -/
def matchAllCaps (cs : Text) : Option Text :=
  match cs with
  | [] => none
  | c :: rest =>
    if isAZ c && rest.all inCapsWs && decide (5 ≤ rest.length) && decide (rest.length ≤ 50)
    then some (c :: rest) else none

/-- Matcher for `^\d+\.\s+[A-Z]` (numbered sections); returns the matched prefix. -/
def matchNumbered (cs : Text) : Option Text :=
  let d := cs.takeWhile (·.isDigit)
  if d = [] then none
  else
    match cs.drop d.length with
    | '.' :: t =>
      let w := t.takeWhile isPyWs
      match t.drop w.length with
      | c :: _ => if w ≠ [] ∧ isAZ c then some (d ++ '.' :: (w ++ [c])) else none
      | [] => none
    | _ => none

/-- Matcher for `^Chapter\s+\d+`; returns the matched prefix. -/
def matchChapter (cs : Text) : Option Text :=
  if cs.take 7 = "Chapter".toList then
    let t := cs.drop 7
    let w := t.takeWhile isPyWs
    let d := (t.drop w.length).takeWhile (·.isDigit)
    if w ≠ [] ∧ d ≠ [] then some ("Chapter".toList ++ (w ++ d)) else none
  else none

/-- Matcher for `^Section\s+\d+`; returns the matched prefix. -/
def matchSection (cs : Text) : Option Text :=
  if cs.take 7 = "Section".toList then
    let t := cs.drop 7
    let w := t.takeWhile isPyWs
    let d := (t.drop w.length).takeWhile (·.isDigit)
    if w ≠ [] ∧ d ≠ [] then some ("Section".toList ++ (w ++ d)) else none
  else none

/-- A chunk of text with metadata (`TextChunk` dataclass). -/
structure TextChunk where
  content : Text
  chunk_index : Nat
  total_chunks : Nat
  section_title : Option Text
  char_count : Nat
deriving DecidableEq, Repr

namespace ChunkingService

/-- Model of `ChunkingService._detect_heading`: strip the line and try the heading
patterns in order, returning capture group 1 when present, else the match. -/
def detect_heading (line : Text) : Option Text :=
  let l := pyStrip line
  if l = [] then none
  else
    (matchMarkdown l).orElse fun _ =>
    (matchPageMarker l).orElse fun _ =>
    (matchSlideMarker l).orElse fun _ =>
    (matchAllCaps l).orElse fun _ =>
    (matchNumbered l).orElse fun _ =>
    (matchChapter l).orElse fun _ =>
    matchSection l

/-- One step of the line fold inside `_extract_sections`: state is
(current title, accumulated body lines, finished sections). -/
def sectionsStep (st : Option Text × List Text × List (Option Text × Text)) (line : Text) :
    Option Text × List Text × List (Option Text × Text) :=
  match detect_heading line with
  | some h =>
    let secs :=
      if st.2.1 ≠ [] then
        let body := pyStrip (joinLines st.2.1)
        if body ≠ [] then st.2.2 ++ [(st.1, body)] else st.2.2
      else st.2.2
    (some h, [], secs)
  | none => (st.1, st.2.1 ++ [line], st.2.2)

/-- Model of `ChunkingService._extract_sections`. -/
def extract_sections (text : Text) : List (Option Text × Text) :=
  let lines := splitOnChar '\n' text
  let st := lines.foldl sectionsStep (none, [], [])
  let secs :=
    if st.2.1 ≠ [] then
      let body := pyStrip (joinLines st.2.1)
      if body ≠ [] then st.2.2 ++ [(st.1, body)] else st.2.2
    else st.2.2
  if secs = [] ∧ pyStrip text ≠ [] then [(none, pyStrip text)] else secs

/-- Model of `ChunkingService.chunk_text`, parameterised by the external
`RecursiveCharacterTextSplitter.split_text` (langchain). -/
def chunk_text (splitter : Text → List Text) (text : Text) : List TextChunk :=
  if pyStrip text = [] then []
  else
    let sections := extract_sections text
    let pieces : List (Option Text × Text) :=
      sections.foldl (fun acc st =>
        if pyStrip st.2 ≠ [] then
          acc ++ (splitter st.2).filterMap fun c =>
            if pyStrip c ≠ [] then some (st.1, pyStrip c) else none
        else acc) []
    let total := pieces.length
    pieces.enum.map fun ic =>
      { content := ic.2.2, chunk_index := ic.1, total_chunks := total,
        section_title := ic.2.1, char_count := ic.2.2.length }

end ChunkingService

/-! ## Settings (`app/config.py`, defaults) -/

/-- Application settings relevant to the modelled components, with the
defaults from `app/config.py`. -/
structure Settings where
  chunk_size : Nat := 512
  chunk_overlap : Nat := 100
  top_k_results : Nat := 5
  min_relevance_score : ℚ := mkRat 3 10
  max_file_size_mb : Nat := 10
  temp_vector_ttl_days : Nat := 7
  attachment_text_size_threshold : Nat := 80000
  attachment_file_size_threshold : Nat := 8388608
deriving DecidableEq

/-- Model of `Settings.max_file_size_bytes` property. -/
def Settings.max_file_size_bytes (s : Settings) : Nat := s.max_file_size_mb * 1024 * 1024

/-! ## Vector store (`app/services/vector_store.py`) -/

/-- A Qdrant record payload.  Every field is optional; `payload.get(key)`
yields `none` when the key is absent. -/
structure Payload where
  room_id : Option String := none
  file_id : Option String := none
  conversation_id : Option String := none
  document_type : Option String := none
  chunk_index : Option Nat := none
  total_chunks : Option Nat := none
  section_title : Option Text := none
  char_count : Option Nat := none
  content : Option Text := none
  timestamp : Option String := none
  is_temporary : Option Bool := none
  ttl_expires_at : Option String := none
deriving DecidableEq

/-- A stored point: opaque id, embedding vector, payload. -/
structure Point where
  id : String
  vector : List ℚ
  payload : Payload
deriving DecidableEq

/-- The vector index contents. -/
abbrev Store := List Point

/-- Stable insertion (descending by key); ties keep the existing element first. -/
def insertByScoreDesc (key : α → ℚ) (x : α) : List α → List α
  | [] => [x]
  | y :: ys => if key y ≤ key x then x :: y :: ys else y :: insertByScoreDesc key x ys

/-- Stable sort, descending by key: the semantics of Python
`list.sort(key=..., reverse=True)` and of Qdrant's highest-score-first
result ordering. -/
def sortByScoreDesc (key : α → ℚ) : List α → List α
  | [] => []
  | x :: xs => insertByScoreDesc key x (sortByScoreDesc key xs)

/-- Modelled from the spec: the Qdrant `search` call (the vector index is an
external collaborator, spec section 4.2): return the `top_k`
highest-similarity points among those matching the filter whose score is not
below `min_score`, highest score first.  `sim` is the cosine-similarity
oracle. -/
def qdrantSearch (sim : List ℚ → List ℚ → ℚ) (qv : List ℚ) (filt : Payload → Bool)
    (top_k : Nat) (min_score : ℚ) (store : Store) : List Point :=
  (sortByScoreDesc (fun pt => sim qv pt.vector)
    (store.filter fun pt => filt pt.payload && decide (min_score ≤ sim qv pt.vector))).take top_k

/-- A formatted search result dict. -/
structure SearchResult where
  id : String
  score : ℚ
  content : Text
  file_id : Option String
  room_id : Option String
  chunk_index : Option Nat
  section_title : Option Text
  document_type : Option String
deriving DecidableEq

namespace VectorStoreService

/-- The filter built by `VectorStoreService.search`: `room_id` must be any of
`room_ids`; when a non-empty `file_id` is given it must match too. -/
def roomFilter (room_ids : List String) (file_id : Option String) (p : Payload) : Bool :=
  (match p.room_id with
   | some r => room_ids.contains r
   | none => false) &&
  (match file_id with
   | some f => if f = "" then true else decide (p.file_id = some f)
   | none => true)

/-- Model of `VectorStoreService.search`: room-scoped similarity search with result
formatting. -/
def search (sim : List ℚ → List ℚ → ℚ) (query_embedding : List ℚ) (room_ids : List String)
    (file_id : Option String) (top_k : Nat) (min_score : ℚ) (store : Store) :
    List SearchResult :=
  (qdrantSearch sim query_embedding (roomFilter room_ids file_id) top_k min_score store).map
    fun pt =>
      { id := pt.id, score := sim query_embedding pt.vector,
        content := pt.payload.content.getD [],
        file_id := pt.payload.file_id, room_id := pt.payload.room_id,
        chunk_index := pt.payload.chunk_index,
        section_title := pt.payload.section_title,
        document_type := pt.payload.document_type }

/-- Model of `VectorStoreService.search_by_conversation`: conversation-scoped search over
temporary attachment vectors; results carry the conversation id in `file_id`,
an empty `room_id`, and document type `"attachment"`. -/
def search_by_conversation (sim : List ℚ → List ℚ → ℚ) (query_embedding : List ℚ)
    (conversation_id : String) (top_k : Nat) (min_score : ℚ) (store : Store) :
    List SearchResult :=
  (qdrantSearch sim query_embedding
      (fun p => decide (p.conversation_id = some conversation_id) &&
                decide (p.is_temporary = some true))
      top_k min_score store).map
    fun pt =>
      { id := pt.id, score := sim query_embedding pt.vector,
        content := pt.payload.content.getD [],
        file_id := pt.payload.conversation_id, room_id := some "",
        chunk_index := pt.payload.chunk_index,
        section_title := pt.payload.section_title,
        document_type := some "attachment" }

/-- Model of `VectorStoreService.store_chunks`: batch-upsert chunk points for a file.
`ids` models `uuid.uuid4()` generation. -/
def store_chunks (chunks : List TextChunk) (embeddings : List (List ℚ))
    (room_id file_id document_type : String) (ids : Nat → String) (timestamp : String)
    (store : Store) : Except String (Nat × Store) :=
  if chunks.length ≠ embeddings.length then
    .error "Chunks and embeddings must have same length"
  else if chunks = [] then .ok (0, store)
  else
    let points := (chunks.zip embeddings).enum.map fun ie =>
      ({ id := ids ie.1, vector := ie.2.2,
         payload := { room_id := some room_id, file_id := some file_id,
                      document_type := some document_type,
                      chunk_index := some ie.2.1.chunk_index,
                      total_chunks := some ie.2.1.total_chunks,
                      section_title := ie.2.1.section_title,
                      char_count := some ie.2.1.char_count,
                      content := some ie.2.1.content,
                      timestamp := some timestamp } } : Point)
    .ok (points.length, store ++ points)

/-- Model of `VectorStoreService.delete_file`: count matching points first, then delete
them; return the pre-deletion count and the new store. -/
def delete_file (file_id : String) (store : Store) : Nat × Store :=
  let count_before := (store.filter fun pt => decide (pt.payload.file_id = some file_id)).length
  (count_before, store.filter fun pt => decide (pt.payload.file_id ≠ some file_id))

/-- Model of `VectorStoreService.delete_room`: count-then-delete by `room_id`. -/
def delete_room (room_id : String) (store : Store) : Nat × Store :=
  let count_before := (store.filter fun pt => decide (pt.payload.room_id = some room_id)).length
  (count_before, store.filter fun pt => decide (pt.payload.room_id ≠ some room_id))

/-- Model of `VectorStoreService.delete_conversation_vectors`: count-then-delete by
`conversation_id` (the delete call is skipped when nothing matches). -/
def delete_conversation_vectors (conversation_id : String) (store : Store) : Nat × Store :=
  let count_before :=
    (store.filter fun pt => decide (pt.payload.conversation_id = some conversation_id)).length
  let store' :=
    if count_before > 0 then
      store.filter fun pt => decide (pt.payload.conversation_id ≠ some conversation_id)
    else store
  (count_before, store')

/-- Model of `VectorStoreService.upsert_temp_attachment_chunks`: assign fresh ids and
batch-upsert the given (vector, payload) pairs. -/
def upsert_temp_attachment_chunks (ids : Nat → String) (points : List (List ℚ × Payload))
    (store : Store) : Nat × Store :=
  let structs := points.enum.map fun ip =>
    ({ id := ids ip.1, vector := ip.2.1, payload := ip.2.2 } : Point)
  (structs.length, store ++ structs)

end VectorStoreService

/-! ## Document processor (`app/services/document_processor.py`) -/

/-- The result dict of `DocumentProcessor.process_attachment`. -/
structure AttachmentResult where
  success : Bool
  flow : Option String
  extracted_content : Option Text
  file_content : Option (List Nat)
  error : Option String
  char_count : Nat
deriving DecidableEq

namespace DocumentProcessor

/-- The supported attachment document types (keys of `doc_type_map`). -/
def docTypeMap : List String := ["PDF", "DOCX", "PPTX", "TXT"]

/-- The flow decision shared by both branches of `process_attachment`:
direct injection is used only when BOTH sizes are at or under their
thresholds. -/
def flowResult (extracted_content : Text) (char_count file_size text_threshold
    file_size_threshold : Nat) : AttachmentResult :=
  if char_count ≤ text_threshold ∧ file_size ≤ file_size_threshold then
    { success := true, flow := some "direct_injection",
      extracted_content := some extracted_content, file_content := none,
      error := none, char_count := char_count }
  else
    { success := true, flow := some "vector_storage",
      extracted_content := some extracted_content, file_content := none,
      error := none, char_count := char_count }

/-- Model of `DocumentProcessor.process_attachment`.  `download` is the outcome of
`download_from_s3`, `extract` models `extract_text` for the mapped document
type, and `b64` models base64 encoding of image bytes. -/
def process_attachment (download : Except String (List Nat))
    (extract : List Nat → Except String Text) (b64 : List Nat → Text)
    (attachment_type : String) (file_size text_threshold file_size_threshold : Nat) :
    AttachmentResult :=
  match download with
  | .error e =>
    { success := false, flow := none, extracted_content := none,
      file_content := none, error := some e, char_count := 0 }
  | .ok file_content =>
    if pyUpper attachment_type = "IMAGE" then
      let extracted := "data:image/*;base64,".toList ++ b64 file_content
      flowResult extracted extracted.length file_size text_threshold file_size_threshold
    else if docTypeMap.contains (pyUpper attachment_type) then
      match extract file_content with
      | .error e =>
        { success := false, flow := none, extracted_content := none,
          file_content := none, error := some e, char_count := 0 }
      | .ok extracted =>
        flowResult extracted extracted.length file_size text_threshold file_size_threshold
    else
      { success := false, flow := none, extracted_content := none,
        file_content := none,
        error := some ("Unsupported attachment type: " ++ attachment_type),
        char_count := 0 }

end DocumentProcessor

/-! ## Retrieval orchestrator (`app/services/retrieval_service.py`) -/

/-- A source chunk of the query response (content truncated to 500 chars). -/
structure SourceChunk where
  file_id : Option String
  chunk_index : Option Nat
  content : Text
  relevance_score : ℚ
  section_title : Option Text
deriving DecidableEq

/-- The non-streaming query response. -/
structure QueryResponse where
  answer : String
  sources : List SourceChunk
  query : String
  chunks_retrieved : Nat
  chunks_created_for_attachment : Option Nat := none
deriving DecidableEq

/-- The outcome of one `RetrievalService.query` call: the response, the
search-result set it retrieved, the vector store after side-effects, and the
number of calls made to the answer generator. -/
structure QueryOutcome where
  response : QueryResponse
  retrieved : List SearchResult
  store : Store
  llm_calls : Nat
deriving DecidableEq

namespace RetrievalService

/-- Model of `k = top_k or settings.top_k_results` (Python truthiness: `None` and `0`
both fall back to the default). -/
def effTopK (top_k : Option Nat) (settings : Settings) : Nat :=
  match top_k with
  | some n => if n = 0 then settings.top_k_results else n
  | none => settings.top_k_results

/-- The fixed answer returned when no relevant chunks are found. -/
def noRelevantAnswer : String :=
  "I couldn\x27t find any relevant information in your course materials to answer this question. Please make sure you\x27ve uploaded relevant documents to your study room."

/-- The Flow-2 side-effect block of `RetrievalService.query`: chunk and embed
the attachment text and upsert the chunks as temporary conversation vectors.
Returns `chunks_created_for_attachment` and the updated store. -/
def flowTwoPhase (embed_documents : List Text → List (List ℚ))
    (splitter : Text → List Text) (ids : Nat → String)
    (ttl_expires_at timestamp : String) (conversation_id : Option String)
    (attachment_result : Option AttachmentResult) (store : Store) : Nat × Store :=
  match attachment_result with
  | some ar =>
    if ar.flow = some "vector_storage" then
      let extracted_text := ar.extracted_content.getD []
      if extracted_text = [] then (0, store)
      else
        let chunks := ChunkingService.chunk_text splitter extracted_text
        let n := chunks.length
        let embeddings := embed_documents (chunks.map (·.content))
        let points := (chunks.zip embeddings).enum.map fun ice =>
          ((ice.2.2 : List ℚ),
           ({ conversation_id := conversation_id, is_temporary := some true,
              ttl_expires_at := some ttl_expires_at,
              chunk_index := some ice.1, total_chunks := some n,
              content := some ice.2.1.content, char_count := some ice.2.1.char_count,
              section_title := ice.2.1.section_title,
              timestamp := some timestamp } : Payload))
        let up := VectorStoreService.upsert_temp_attachment_chunks ids points store
        (n, up.2)
    else (0, store)
  | none => (0, store)

/-- The search step of `RetrievalService.query`: dual retrieval (room search
plus conversation search, merged by descending score and truncated to `k`)
when a vector attachment is flagged and a non-empty conversation id is
present; the plain room search otherwise. -/
def searchPhase (sim : List ℚ → List ℚ → ℚ) (qv : List ℚ) (room_ids : List String)
    (context_file_id : Option String) (k : Nat) (min_score : ℚ)
    (conversation_id : Option String) (has_vector_attachment : Bool)
    (store : Store) : List SearchResult :=
  match conversation_id, has_vector_attachment with
  | some cid, true =>
    if cid = "" then
      VectorStoreService.search sim qv room_ids context_file_id k min_score store
    else
      let room_results :=
        VectorStoreService.search sim qv room_ids context_file_id k min_score store
      let attachment_results :=
        VectorStoreService.search_by_conversation sim qv cid k min_score store
      (sortByScoreDesc (fun r => r.score) (room_results ++ attachment_results)).take k
  | _, _ => VectorStoreService.search sim qv room_ids context_file_id k min_score store

/-- Model of `RetrievalService.query`: the full non-streaming RAG pipeline.  `llm`
models `llm_service.generate_answer`. -/
def query (sim : List ℚ → List ℚ → ℚ) (embed_query : String → List ℚ)
    (embed_documents : List Text → List (List ℚ))
    (llm : String → List SearchResult → String)
    (splitter : Text → List Text) (ids : Nat → String)
    (ttl_expires_at timestamp : String) (settings : Settings)
    (q : String) (room_ids : List String) (context_file_id : Option String)
    (top_k : Option Nat) (conversation_id : Option String)
    (has_vector_attachment : Bool) (attachment_result : Option AttachmentResult)
    (store : Store) : QueryOutcome :=
  let k := effTopK top_k settings
  let min_score := settings.min_relevance_score
  let fl := flowTwoPhase embed_documents splitter ids ttl_expires_at timestamp
    conversation_id attachment_result store
  let qv := embed_query q
  let search_results := searchPhase sim qv room_ids context_file_id k min_score
    conversation_id has_vector_attachment fl.2
  if search_results = [] then
    { response := { answer := noRelevantAnswer, sources := [], query := q,
                    chunks_retrieved := 0 },
      retrieved := [], store := fl.2, llm_calls := 0 }
  else
    let answer := llm q search_results
    let sources := search_results.map fun r =>
      ({ file_id := r.file_id, chunk_index := r.chunk_index,
         content := r.content.take 500, relevance_score := r.score,
         section_title := r.section_title } : SourceChunk)
    { response := { answer := answer, sources := sources, query := q,
                    chunks_retrieved := sources.length,
                    chunks_created_for_attachment :=
                      if fl.1 > 0 then some fl.1 else none },
      retrieved := search_results, store := fl.2, llm_calls := 1 }

/-- A source entry of the streaming `sources` event (no content field). -/
structure StreamSource where
  file_id : Option String
  chunk_index : Option Nat
  relevance_score : ℚ
  section_title : Option Text
deriving DecidableEq

/-- Project a search result to a streaming source entry. -/
def toStreamSource (r : SearchResult) : StreamSource :=
  { file_id := r.file_id, chunk_index := r.chunk_index,
    relevance_score := r.score, section_title := r.section_title }

/-- A server-sent event emitted by `RetrievalService.query_stream`. -/
inductive StreamEvent where
  | status (status message : String)
  | sources (sources : List StreamSource) (count : Nat)
  | chunk (text : String)
  | completeEmpty (answer : String) (sources : List StreamSource) (chunks_retrieved : Nat)
  | complete (chunks_retrieved : Nat)
  | error (message : String)
deriving DecidableEq

/-- Model of `RetrievalService.query_stream`: the streaming variant.  It performs a
single room-scoped search (its `conversation_id` and `has_vector_attachment`
parameters are never used) and emits the ordered event sequence.
`llm_stream` models `llm_service.generate_answer_stream` as the list of
incremental text fragments. -/
def query_stream (sim : List ℚ → List ℚ → ℚ) (embed_query : String → List ℚ)
    (llm_stream : String → List SearchResult → List String) (settings : Settings)
    (q : String) (room_ids : List String) (context_file_id : Option String)
    (top_k : Option Nat) (conversation_id : Option String)
    (has_vector_attachment : Bool) (store : Store) : List StreamEvent :=
  let k := effTopK top_k settings
  let min_score := settings.min_relevance_score
  let qv := embed_query q
  let search_results :=
    VectorStoreService.search sim qv room_ids context_file_id k min_score store
  if search_results = [] then
    [.status "searching" "Searching course materials...",
     .completeEmpty "I couldn\x27t find any relevant information in your course materials." [] 0]
  else
    let sources := search_results.map toStreamSource
    [StreamEvent.status "searching" "Searching course materials...",
     StreamEvent.sources sources sources.length,
     StreamEvent.status "generating" "Generating answer..."]
    ++ (llm_stream q search_results).map StreamEvent.chunk
    ++ [StreamEvent.complete sources.length]

/-- The concatenation of all source lists carried by `sources` events. -/
def streamSources (events : List StreamEvent) : List StreamSource :=
  (events.filterMap fun e =>
    match e with
    | .sources s _ => some s
    | _ => none).flatten

end RetrievalService

/-! ## Ingestion routes (`app/routes/ingest.py`) -/

/-- An HTTP error response raised by the synchronous ingestion route. -/
structure HTTPError where
  status_code : Nat
  detail : String
deriving DecidableEq

/-- The synchronous ingestion response. -/
structure IngestResponse where
  success : Bool
  file_id : String
  room_id : String
  chunks_created : Nat
  message : String
deriving DecidableEq

/-- Processing status of a background ingestion job. -/
inductive ProcessingStatus where
  | pending
  | processing
  | completed
  | failed
deriving DecidableEq

/-- The processing status record kept per `file_id`. -/
structure StatusRecord where
  status : ProcessingStatus
  chunks_created : Option Nat
  error : Option String
deriving DecidableEq

/-- Model of `ingest_document` (route `POST /ingest`), from the point where the file
content has been read and the document type validated.  `extract` models
`document_processor.extract_text` for the validated type,
`embed_documents` models the embedding service (failing batch call included).
Returns the route outcome paired with the vector store after the call. -/
def ingest_document (extract : List Nat → Except String Text)
    (splitter : Text → List Text)
    (embed_documents : List Text → Except String (List (List ℚ)))
    (ids : Nat → String) (timestamp : String) (settings : Settings)
    (content : List Nat) (room_id file_id document_type : String)
    (store : Store) : Except HTTPError IngestResponse × Store :=
  if content.length > settings.max_file_size_bytes then
    (.error ⟨413, "File exceeds maximum size"⟩, store)
  else if content.length = 0 then
    (.error ⟨400, "Empty file uploaded"⟩, store)
  else
    match extract content with
    | .error e => (.error ⟨400, e⟩, store)
    | .ok text =>
      if pyStrip text = [] then
        (.error ⟨400, "No text content could be extracted from the document"⟩, store)
      else
        let chunks := ChunkingService.chunk_text splitter text
        if chunks = [] then
          (.error ⟨400, "Document produced no valid text chunks"⟩, store)
        else
          match embed_documents (chunks.map (·.content)) with
          | .error e => (.error ⟨500, "Document processing failed: " ++ e⟩, store)
          | .ok embeddings =>
            let del := VectorStoreService.delete_file file_id store
            match VectorStoreService.store_chunks chunks embeddings room_id file_id
                document_type ids timestamp del.2 with
            | .error e => (.error ⟨500, "Document processing failed: " ++ e⟩, del.2)
            | .ok (chunks_stored, store2) =>
              (.ok { success := true, file_id := file_id, room_id := room_id,
                     chunks_created := chunks_stored,
                     message := "Successfully processed document with " ++
                       toString chunks_stored ++ " chunks" }, store2)

/-- Model of `process_s3_document` (background S3 ingestion worker).  `download` models
`download_from_s3`.  Returns the final status record for the `file_id` and
the vector store after the run (failures are recorded, not raised). -/
def process_s3_document (download : Except String (List Nat))
    (extract : List Nat → Except String Text)
    (splitter : Text → List Text)
    (embed_documents : List Text → Except String (List (List ℚ)))
    (ids : Nat → String) (timestamp : String) (settings : Settings)
    (room_id file_id document_type : String)
    (store : Store) : StatusRecord × Store :=
  match download with
  | .error e =>
    ({ status := .failed, chunks_created := none,
       error := some ("S3 download failed: " ++ e) }, store)
  | .ok content =>
    if content.length > settings.max_file_size_bytes then
      ({ status := .failed, chunks_created := none,
         error := some "File exceeds maximum size" }, store)
    else if content.length = 0 then
      ({ status := .failed, chunks_created := none,
         error := some "Downloaded file is empty" }, store)
    else
      match extract content with
      | .error e =>
        ({ status := .failed, chunks_created := none,
           error := some ("Text extraction failed: " ++ e) }, store)
      | .ok text =>
        if pyStrip text = [] then
          ({ status := .failed, chunks_created := none,
             error := some "No text content could be extracted from the document" }, store)
        else
          let chunks := ChunkingService.chunk_text splitter text
          if chunks = [] then
            ({ status := .failed, chunks_created := none,
               error := some "Document produced no valid text chunks" }, store)
          else
            match embed_documents (chunks.map (·.content)) with
            | .error e =>
              ({ status := .failed, chunks_created := none, error := some e }, store)
            | .ok embeddings =>
              let del := VectorStoreService.delete_file file_id store
              match VectorStoreService.store_chunks chunks embeddings room_id file_id
                  document_type ids timestamp del.2 with
              | .error e =>
                ({ status := .failed, chunks_created := none, error := some e }, del.2)
              | .ok (chunks_stored, store2) =>
                ({ status := .completed, chunks_created := some chunks_stored,
                   error := none }, store2)

/-- The number of stored vectors carrying a given `file_id`. -/
def countFile (file_id : String) (store : Store) : Nat :=
  (store.filter fun pt => decide (pt.payload.file_id = some file_id)).length

/-- All ingestion steps before any write to the vector index succeed:
size checks pass, extraction yields non-blank text, chunking yields at least
one chunk, and the embedding batch call succeeds. -/
def ingestPrefixOk (extract : List Nat → Except String Text)
    (splitter : Text → List Text)
    (embed_documents : List Text → Except String (List (List ℚ)))
    (settings : Settings) (content : List Nat) : Prop :=
  content.length ≤ settings.max_file_size_bytes ∧ content.length ≠ 0 ∧
  ∃ text, extract content = .ok text ∧ pyStrip text ≠ [] ∧
    ChunkingService.chunk_text splitter text ≠ [] ∧
    ∃ embs, embed_documents ((ChunkingService.chunk_text splitter text).map (·.content)) =
      .ok embs

deriving instance DecidableEq for Except

/-! ## Concrete evaluation fixtures -/

/-- Similarity oracle reading the score off the stored vector's head. -/
def exSim : List ℚ → List ℚ → ℚ := fun _ v => v.headD 0

/-- Query-embedding oracle for concrete runs. -/
def exEmbedQuery : String → List ℚ := fun _ => [1]

/-- Document-embedding oracle for concrete runs. -/
def exEmbedDocs : List Text → List (List ℚ) := fun ts => ts.map fun _ => [1]

/-- Fallible document-embedding oracle for concrete ingest runs. -/
def exEmbedDocsE : List Text → Except String (List (List ℚ)) :=
  fun ts => .ok (ts.map fun _ => [1])

/-- Answer-generator oracle for concrete runs. -/
def exLlm : String → List SearchResult → String := fun _ _ => "answer"

/-- Streaming answer-generator oracle for concrete runs. -/
def exLlmStream : String → List SearchResult → List String := fun _ _ => ["answer"]

/-- Splitter oracle that keeps each section whole. -/
def exSplitter : Text → List Text := fun t => [t]

/-- Id-generation oracle for concrete runs. -/
def exIds : Nat → String := fun n => toString n

/-- A persistent room-document point with a given similarity score. -/
def exRoomPoint (id : String) (s : ℚ) : Point :=
  { id := id, vector := [s],
    payload := { room_id := some "r1", file_id := some "f1", content := some ['x'] } }

/-- A temporary conversation-attachment point with a given similarity score. -/
def exConvPoint (id : String) (s : ℚ) : Point :=
  { id := id, vector := [s],
    payload := { conversation_id := some "c1", is_temporary := some true,
                 content := some ['y'] } }

/-- A store with two room points (scores 0.9, 0.4) and two conversation
points (scores 0.8, 0.3). -/
def exStore : Store :=
  [exRoomPoint "p1" (mkRat 9 10), exRoomPoint "p2" (mkRat 4 10),
   exConvPoint "p3" (mkRat 8 10), exConvPoint "p4" (mkRat 3 10)]

/-- Extraction oracle for concrete ingest runs. -/
def exExtract : List Nat → Except String Text := fun _ => .ok "hello".toList

/-! ## Theorems -/

/-- Claim C6: for every input text, the chunk sequence returned by one
`chunk_text()` call of length `N` has `chunk_index` values exactly `0..N-1` in
order with no gaps or repeats, every chunk's `total_chunks` equals `N`, and
every chunk's `char_count` equals the length of its `content` field. -/
theorem c6_chunk_metadata_invariants (splitter : Text → List Text) (text : Text) :
    ((ChunkingService.chunk_text splitter text).map (·.chunk_index) =
       List.range (ChunkingService.chunk_text splitter text).length) ∧
    ∀ c ∈ ChunkingService.chunk_text splitter text,
      c.total_chunks = (ChunkingService.chunk_text splitter text).length ∧
      c.char_count = c.content.length := by
  simp only [ChunkingService.chunk_text]
  split
  · simp
  · constructor
    · simp [List.map_map, Function.comp_def, List.enum_map_fst]
    · intro c hc
      simp only [List.mem_map] at hc
      obtain ⟨ic, hic, rfl⟩ := hc
      simp [List.enum_length]

/-- Helper: the flow decision of `process_attachment` chooses vector storage
exactly when at least one size exceeds its threshold. -/
theorem flowResult_spec (ec : Text) (cc fs tt fst : Nat) :
    ((DocumentProcessor.flowResult ec cc fs tt fst).flow = some "vector_storage" ↔
      (tt < cc ∨ fst < fs)) ∧
    (DocumentProcessor.flowResult ec cc fs tt fst).char_count = cc ∧
    (DocumentProcessor.flowResult ec cc fs tt fst).success = true := by
  unfold DocumentProcessor.flowResult
  split <;> simp_all <;> omega

/-- Claim C1 (amended): for every attachment that downloads and extracts
successfully, the vector-storage flow is chosen if and only if AT LEAST ONE
threshold is exceeded (extracted character count above the character
threshold OR raw byte size above the byte threshold); direct injection
requires both sizes at or under their thresholds. -/
theorem c1_attachment_flow_decision (download : Except String (List Nat))
    (extract : List Nat → Except String Text) (b64 : List Nat → Text)
    (ty : String) (fs tt fst : Nat)
    (h : (DocumentProcessor.process_attachment download extract b64 ty fs tt fst).success =
      true) :
    ((DocumentProcessor.process_attachment download extract b64 ty fs tt fst).flow =
       some "vector_storage" ↔
     (tt < (DocumentProcessor.process_attachment download extract b64 ty fs tt fst).char_count ∨
      fst < fs)) := by
  cases download with
  | error e => simp [DocumentProcessor.process_attachment] at h
  | ok fc =>
    by_cases himg : pyUpper ty = "IMAGE"
    · simp only [DocumentProcessor.process_attachment, himg, if_true] at h ⊢
      rw [(flowResult_spec _ _ _ _ _).2.1]
      exact (flowResult_spec _ _ _ _ _).1
    · by_cases hsup : pyUpper ty ∈ DocumentProcessor.docTypeMap
      · have hsupb : DocumentProcessor.docTypeMap.contains (pyUpper ty) = true := by
          simpa using hsup
        cases hex : extract fc with
        | error e =>
          simp [DocumentProcessor.process_attachment, himg, hsup, hsupb, hex] at h
        | ok ext =>
          simp only [DocumentProcessor.process_attachment, himg, hsupb, hex, if_false,
            if_true, ite_true, ite_false, reduceIte] at h ⊢
          rw [(flowResult_spec _ _ _ _ _).2.1]
          exact (flowResult_spec _ _ _ _ _).1
      · have hsupb : DocumentProcessor.docTypeMap.contains (pyUpper ty) = false := by
          simpa using hsup
        simp [DocumentProcessor.process_attachment, himg, hsup, hsupb] at h

/-- Counterexample to claim C1: a TXT attachment with 10 extracted characters
(character threshold 3) and byte size 0 (byte threshold 100) is routed to
vector storage although only ONE of the two thresholds is exceeded, refuting
the claim that BOTH must be exceeded. -/
theorem c1_claim_counterexample :
    ¬ (((DocumentProcessor.process_attachment (.ok []) (fun _ => .ok "ABCDEFGHIJ".toList)
          (fun _ => []) "TXT" 0 3 100).flow = some "vector_storage") ↔
       (3 < (DocumentProcessor.process_attachment (.ok []) (fun _ => .ok "ABCDEFGHIJ".toList)
          (fun _ => []) "TXT" 0 3 100).char_count ∧ 100 < 0)) := by
  decide

/-- Witness for C1 at a concrete successful extraction. -/
theorem c1_attachment_flow_decision_witness :
    (DocumentProcessor.process_attachment (.ok []) (fun _ => .ok "ABCDEFGHIJ".toList)
       (fun _ => []) "TXT" 0 3 100).success = true ∧
    ((DocumentProcessor.process_attachment (.ok []) (fun _ => .ok "ABCDEFGHIJ".toList)
        (fun _ => []) "TXT" 0 3 100).flow = some "vector_storage" ↔
     (3 < (DocumentProcessor.process_attachment (.ok []) (fun _ => .ok "ABCDEFGHIJ".toList)
        (fun _ => []) "TXT" 0 3 100).char_count ∨ 100 < 0)) :=
  ⟨by decide, c1_attachment_flow_decision _ _ _ _ _ _ _ (by decide)⟩

/-- Helper: a list fixed by `pyStrip` does not start with whitespace. -/
theorem pyStrip_cons_head_not_ws {c : Char} {rest : Text}
    (h : pyStrip (c :: rest) = c :: rest) : isPyWs c = false := by
  by_contra hb
  rw [Bool.not_eq_false] at hb
  have h1 : (pyStrip (c :: rest)).length ≤ rest.length := by
    unfold pyStrip
    rw [List.length_reverse]
    calc (List.dropWhile isPyWs ((c :: rest).dropWhile isPyWs).reverse).length
        ≤ ((c :: rest).dropWhile isPyWs).reverse.length :=
          (List.dropWhile_sublist _).length_le
      _ = ((c :: rest).dropWhile isPyWs).length := List.length_reverse _
      _ = (rest.dropWhile isPyWs).length := by rw [List.dropWhile_cons, if_pos hb]
      _ ≤ rest.length := (List.dropWhile_sublist _).length_le
  rw [h] at h1
  simp only [List.length_cons] at h1
  omega

/-- Helper: an ASCII uppercase letter is not whitespace, not `#`, not `[`,
and not a digit. -/
theorem isAZ_not_special {c : Char} (h : isAZ c = true) :
    isPyWs c = false ∧ c ≠ '#' ∧ c ≠ '[' ∧ c.isDigit = false := by
  unfold isAZ at h
  rw [Bool.and_eq_true, decide_eq_true_eq, decide_eq_true_eq] at h
  obtain ⟨h1, h2⟩ := h
  refine ⟨?_, ?_, ?_, ?_⟩
  · simp only [isPyWs, Bool.or_eq_false_iff, decide_eq_false_iff_not]
    refine ⟨⟨⟨⟨⟨?_, ?_⟩, ?_⟩, ?_⟩, ?_⟩, ?_⟩ <;>
      (intro hh; subst hh; exact absurd h1 (by decide))
  · intro hh; subst hh; exact absurd h1 (by decide)
  · intro hh; subst hh; exact absurd h2 (by decide)
  · have h1n : (65 : Nat) ≤ c.val.toNat := h1
    simp only [Char.isDigit]
    rw [Bool.and_eq_false_iff]
    right
    simp only [decide_eq_false_iff_not]
    intro hc
    have hcn : c.val.toNat ≤ (57 : Nat) := hc
    omega

/-- Claim C7 (amended): for every line with no surrounding whitespace that
consists only of ASCII uppercase letters and spaces, the heading detector
classifies it as a heading if and only if its length is between 6 and 51
characters inclusive (the regex `[A-Z][A-Z\s]{5,50}` consumes one leading
letter plus 5 to 50 further characters). -/
theorem c7_allcaps_heading_length (line : Text)
    (hclass : ∀ c ∈ line, ('A' ≤ c ∧ c ≤ 'Z') ∨ c = ' ')
    (hstrip : pyStrip line = line) :
    ((ChunkingService.detect_heading line).isSome = true ↔
      (6 ≤ line.length ∧ line.length ≤ 51)) := by
  unfold ChunkingService.detect_heading
  rw [hstrip]
  cases line with
  | nil => simp
  | cons c rest =>
    have hcls := hclass c (List.mem_cons_self _ _)
    have hcw : isPyWs c = false := pyStrip_cons_head_not_ws hstrip
    have hcAZ : isAZ c = true := by
      rcases hcls with hh | hh
      · unfold isAZ
        rw [Bool.and_eq_true]
        exact ⟨decide_eq_true hh.1, decide_eq_true hh.2⟩
      · subst hh
        simp [isPyWs] at hcw
    obtain ⟨-, hhash, hbracket, hdigit⟩ := isAZ_not_special hcAZ
    rw [if_neg (by simp)]
    have hm1 : matchMarkdown (c :: rest) = none := by
      have ht : (c :: rest).takeWhile (· = '#') = [] := by
        simp [List.takeWhile_cons, hhash]
      unfold matchMarkdown
      rw [ht]
      simp
    have hm2 : matchPageMarker (c :: rest) = none := by
      have hcond : ¬ ((c :: rest).take 6 = "[Page ".toList) := by
        intro heq
        rw [show "[Page ".toList = '[' :: "Page ".toList from rfl,
          List.take_succ_cons, List.cons.injEq] at heq
        exact hbracket heq.1
      unfold matchPageMarker
      rw [if_neg hcond]
    have hm3 : matchSlideMarker (c :: rest) = none := by
      have hcond : ¬ ((c :: rest).take 7 = "[Slide ".toList) := by
        intro heq
        rw [show "[Slide ".toList = '[' :: "Slide ".toList from rfl,
          List.take_succ_cons, List.cons.injEq] at heq
        exact hbracket heq.1
      unfold matchSlideMarker
      rw [if_neg hcond]
    have hm5 : matchNumbered (c :: rest) = none := by
      have ht : (c :: rest).takeWhile (·.isDigit) = [] := by
        simp [List.takeWhile_cons, hdigit]
      unfold matchNumbered
      rw [ht]
      simp
    have hm6 : matchChapter (c :: rest) = none := by
      have hcond : ¬ ((c :: rest).take 7 = "Chapter".toList) := by
        intro heq
        rw [show "Chapter".toList = 'C' :: 'h' :: "apter".toList from rfl,
          List.take_succ_cons, List.cons.injEq] at heq
        obtain ⟨-, heq2⟩ := heq
        cases rest with
        | nil => simp at heq2
        | cons r0 rs =>
          rw [List.take_succ_cons, List.cons.injEq] at heq2
          obtain ⟨hr0, -⟩ := heq2
          have hr := hclass r0 (by simp)
          rw [hr0] at hr
          rcases hr with hh | hh
          · exact absurd hh.2 (by decide)
          · exact absurd hh (by decide)
      unfold matchChapter
      rw [if_neg hcond]
    have hm7 : matchSection (c :: rest) = none := by
      have hcond : ¬ ((c :: rest).take 7 = "Section".toList) := by
        intro heq
        rw [show "Section".toList = 'S' :: 'e' :: "ction".toList from rfl,
          List.take_succ_cons, List.cons.injEq] at heq
        obtain ⟨-, heq2⟩ := heq
        cases rest with
        | nil => simp at heq2
        | cons r0 rs =>
          rw [List.take_succ_cons, List.cons.injEq] at heq2
          obtain ⟨hr0, -⟩ := heq2
          have hr := hclass r0 (by simp)
          rw [hr0] at hr
          rcases hr with hh | hh
          · exact absurd hh.2 (by decide)
          · exact absurd hh (by decide)
      unfold matchSection
      rw [if_neg hcond]
    have hall : rest.all inCapsWs = true := by
      rw [List.all_eq_true]
      intro x hx
      rcases hclass x (List.mem_cons_of_mem _ hx) with hh | hh
      · simp [inCapsWs, isAZ, hh.1, hh.2]
      · subst hh
        simp [inCapsWs, isPyWs]
    simp only [hm1, hm2, hm3, hm5, hm6, hm7, Option.orElse]
    simp only [matchAllCaps, hcAZ, hall, Bool.true_and]
    by_cases hlen : 5 ≤ rest.length ∧ rest.length ≤ 50
    · rw [if_pos (by simp [hlen.1, hlen.2])]
      simp only [Option.isSome_some, true_iff, List.length_cons]
      omega
    · rw [if_neg (by simp only [Bool.and_eq_true, decide_eq_true_eq]; exact hlen)]
      simp only [Option.isSome_none, Bool.false_eq_true, false_iff, List.length_cons, not_and]
      push_neg at hlen
      intro h6
      omega

/-- Counterexample to claim C7: the line `"ABCDE"` consists only of uppercase
letters and has length 5 (within the claimed 5 to 50 range), yet the heading
detector does not classify it as a heading. -/
theorem c7_claim_counterexample :
    (ChunkingService.detect_heading "ABCDE".toList).isSome = false ∧
    5 ≤ "ABCDE".toList.length ∧ "ABCDE".toList.length ≤ 50 ∧
    (∀ c ∈ "ABCDE".toList, ('A' ≤ c ∧ c ≤ 'Z')) := by
  decide

/-- Witness for C7 at the concrete line `"ABCDEF"`. -/
theorem c7_allcaps_heading_length_witness :
    (∀ c ∈ "ABCDEF".toList, ('A' ≤ c ∧ c ≤ 'Z') ∨ c = ' ') ∧
    pyStrip "ABCDEF".toList = "ABCDEF".toList ∧
    ((ChunkingService.detect_heading "ABCDEF".toList).isSome = true ↔
      (6 ≤ "ABCDEF".toList.length ∧ "ABCDEF".toList.length ≤ 51)) :=
  ⟨by decide, by decide,
   c7_allcaps_heading_length "ABCDEF".toList (by decide) (by decide)⟩

/-- Helper: membership in `insertByScoreDesc`. -/
theorem mem_insertByScoreDesc {key : α → ℚ} {x a : α} {l : List α} :
    a ∈ insertByScoreDesc key x l ↔ a = x ∨ a ∈ l := by
  induction l with
  | nil => simp [insertByScoreDesc]
  | cons y ys ih =>
    simp only [insertByScoreDesc]
    split
    · simp
    · simp only [List.mem_cons, ih]
      tauto

/-- Helper: membership in `sortByScoreDesc`. -/
theorem mem_sortByScoreDesc {key : α → ℚ} {a : α} {l : List α} :
    a ∈ sortByScoreDesc key l ↔ a ∈ l := by
  induction l with
  | nil => simp [sortByScoreDesc]
  | cons x xs ih => simp [sortByScoreDesc, mem_insertByScoreDesc, ih]

/-- Claim C8: every bulk delete (by file, by room, by conversation) returns
exactly the number of stored records matching its filter, counted on the
pre-deletion store; the count plus the size of the remaining store equals the
original size; and a search scoped to a deleted room returns no results. -/
theorem c8_delete_count_then_delete (fid rid cid : String) (store : Store)
    (sim : List ℚ → List ℚ → ℚ) (qv : List ℚ) (cfid : Option String) (k : Nat) (ms : ℚ) :
    ((VectorStoreService.delete_file fid store).1 =
      (store.filter fun pt => decide (pt.payload.file_id = some fid)).length) ∧
    ((VectorStoreService.delete_room rid store).1 =
      (store.filter fun pt => decide (pt.payload.room_id = some rid)).length) ∧
    ((VectorStoreService.delete_conversation_vectors cid store).1 =
      (store.filter fun pt => decide (pt.payload.conversation_id = some cid)).length) ∧
    ((VectorStoreService.delete_room rid store).1 +
      (VectorStoreService.delete_room rid store).2.length = store.length) ∧
    (VectorStoreService.search sim qv [rid] cfid k ms
      (VectorStoreService.delete_room rid store).2 = []) := by
  refine ⟨rfl, rfl, rfl, ?_, ?_⟩
  · have hpart := List.length_eq_length_filter_add
      (l := store) (fun pt => decide (pt.payload.room_id = some rid))
    simp only [VectorStoreService.delete_room, decide_not]
    omega
  · have hfil : (VectorStoreService.delete_room rid store).2.filter
        (fun pt => VectorStoreService.roomFilter [rid] cfid pt.payload &&
          decide (ms ≤ sim qv pt.vector)) = [] := by
      rw [List.filter_eq_nil_iff]
      intro pt hpt
      simp only [VectorStoreService.delete_room, List.mem_filter] at hpt
      have hne : pt.payload.room_id ≠ some rid := of_decide_eq_true hpt.2
      simp only [Bool.and_eq_true, not_and]
      intro hroom
      exfalso
      unfold VectorStoreService.roomFilter at hroom
      rw [Bool.and_eq_true] at hroom
      rcases hrm : pt.payload.room_id with _ | r
      · rw [hrm] at hroom
        simp at hroom
      · have hr : r ≠ rid := fun he => hne (he ▸ hrm)
        rw [hrm] at hroom
        have := hroom.1
        simp [hr] at this
    unfold VectorStoreService.search qdrantSearch
    rw [hfil]
    simp [sortByScoreDesc]

/-- Claim C10: every result of `search_by_conversation` carries the
conversation id in its `file_id` field, an empty string as `room_id`, and the
literal document type `"attachment"`. -/
theorem c10_conversation_result_shape (sim : List ℚ → List ℚ → ℚ) (qv : List ℚ)
    (cid : String) (k : Nat) (ms : ℚ) (store : Store) :
    ∀ r ∈ VectorStoreService.search_by_conversation sim qv cid k ms store,
      r.file_id = some cid ∧ r.room_id = some "" ∧ r.document_type = some "attachment" := by
  intro r hr
  unfold VectorStoreService.search_by_conversation at hr
  rw [List.mem_map] at hr
  obtain ⟨pt, hpt, rfl⟩ := hr
  refine ⟨?_, rfl, rfl⟩
  unfold qdrantSearch at hpt
  have hpt2 := List.mem_of_mem_take hpt
  rw [mem_sortByScoreDesc, List.mem_filter] at hpt2
  have hcnd := hpt2.2
  rw [Bool.and_eq_true] at hcnd
  have h1 := hcnd.1
  rw [Bool.and_eq_true] at h1
  exact of_decide_eq_true h1.1

/-- Witness for C10 at a concrete one-point store. -/
theorem c10_conversation_result_shape_witness :
    (({ id := "p3", score := mkRat 8 10, content := ['y'], file_id := some "c1",
        room_id := some "", chunk_index := none, section_title := none,
        document_type := some "attachment" } : SearchResult) ∈
      VectorStoreService.search_by_conversation exSim [1] "c1" 1 0
        [exConvPoint "p3" (mkRat 8 10)]) ∧
    (({ id := "p3", score := mkRat 8 10, content := ['y'], file_id := some "c1",
        room_id := some "", chunk_index := none, section_title := none,
        document_type := some "attachment" } : SearchResult).file_id = some "c1" ∧
     ({ id := "p3", score := mkRat 8 10, content := ['y'], file_id := some "c1",
        room_id := some "", chunk_index := none, section_title := none,
        document_type := some "attachment" } : SearchResult).room_id = some "" ∧
     ({ id := "p3", score := mkRat 8 10, content := ['y'], file_id := some "c1",
        room_id := some "", chunk_index := none, section_title := none,
        document_type := some "attachment" } : SearchResult).document_type =
       some "attachment") :=
  ⟨by decide,
   c10_conversation_result_shape exSim [1] "c1" 1 0 [exConvPoint "p3" (mkRat 8 10)]
     _ (by decide)⟩

/-- Helper: the store returned by `query` is the store after the Flow-2
side-effect. -/
theorem query_store_eq (sim : List ℚ → List ℚ → ℚ) (eq : String → List ℚ)
    (ed : List Text → List (List ℚ)) (llm : String → List SearchResult → String)
    (sp : Text → List Text) (ids : Nat → String) (ttl ts : String) (settings : Settings)
    (q : String) (rooms : List String) (cfid : Option String) (topk : Option Nat)
    (cid : Option String) (hva : Bool) (ar : Option AttachmentResult) (store : Store) :
    (RetrievalService.query sim eq ed llm sp ids ttl ts settings q rooms cfid topk cid hva
      ar store).store =
    (RetrievalService.flowTwoPhase ed sp ids ttl ts cid ar store).2 := by
  simp only [RetrievalService.query]
  split <;> rfl

/-- Helper: the retrieved set of `query` is the result of its search phase on
the post-side-effect store. -/
theorem query_retrieved_eq (sim : List ℚ → List ℚ → ℚ) (eq : String → List ℚ)
    (ed : List Text → List (List ℚ)) (llm : String → List SearchResult → String)
    (sp : Text → List Text) (ids : Nat → String) (ttl ts : String) (settings : Settings)
    (q : String) (rooms : List String) (cfid : Option String) (topk : Option Nat)
    (cid : Option String) (hva : Bool) (ar : Option AttachmentResult) (store : Store) :
    (RetrievalService.query sim eq ed llm sp ids ttl ts settings q rooms cfid topk cid hva
      ar store).retrieved =
    RetrievalService.searchPhase sim (eq q) rooms cfid
      (RetrievalService.effTopK topk settings) settings.min_relevance_score cid hva
      (RetrievalService.flowTwoPhase ed sp ids ttl ts cid ar store).2 := by
  simp only [RetrievalService.query]
  split
  · rename_i h
    exact h.symm
  · rfl

/-- Claim C2: with a vector attachment flagged and a conversation id present,
the retrieved set is the concatenation of the room-scoped and the
conversation-scoped search results, stable-sorted by descending score and
truncated to `top_k`; concretely, room scores [0.9, 0.4] merged with
conversation scores [0.8, 0.3] at `top_k = 3` yield exactly
[0.9, 0.8, 0.4] in that order. -/
theorem c2_dual_merge_by_score :
    (∀ (sim : List ℚ → List ℚ → ℚ) (eq : String → List ℚ)
       (ed : List Text → List (List ℚ)) (llm : String → List SearchResult → String)
       (sp : Text → List Text) (ids : Nat → String) (ttl ts : String)
       (settings : Settings) (q : String) (rooms : List String) (cfid : Option String)
       (topk : Option Nat) (cid : String) (ar : Option AttachmentResult) (store : Store),
      cid ≠ "" →
      (RetrievalService.query sim eq ed llm sp ids ttl ts settings q rooms cfid topk
        (some cid) true ar store).retrieved =
      (sortByScoreDesc (fun r => r.score)
        (VectorStoreService.search sim (eq q) rooms cfid
           (RetrievalService.effTopK topk settings) settings.min_relevance_score
           (RetrievalService.query sim eq ed llm sp ids ttl ts settings q rooms cfid topk
             (some cid) true ar store).store ++
         VectorStoreService.search_by_conversation sim (eq q) cid
           (RetrievalService.effTopK topk settings) settings.min_relevance_score
           (RetrievalService.query sim eq ed llm sp ids ttl ts settings q rooms cfid topk
             (some cid) true ar store).store)).take
        (RetrievalService.effTopK topk settings)) ∧
    ((RetrievalService.query exSim exEmbedQuery exEmbedDocs exLlm exSplitter exIds "t" "ts"
        {} "q" ["r1"] none (some 3) (some "c1") true none exStore).retrieved.map
      (fun r => r.score) = [mkRat 9 10, mkRat 8 10, mkRat 4 10]) := by
  constructor
  · intro sim eq ed llm sp ids ttl ts settings q rooms cfid topk cid ar store hcid
    rw [query_retrieved_eq, query_store_eq]
    simp only [RetrievalService.searchPhase]
    rw [if_neg hcid]
  · decide

/-- Witness for C2 at the concrete dual-source store. -/
theorem c2_dual_merge_by_score_witness :
    ("c1" : String) ≠ "" ∧
    (RetrievalService.query exSim exEmbedQuery exEmbedDocs exLlm exSplitter exIds "t" "ts"
      {} "q" ["r1"] none (some 3) (some "c1") true none exStore).retrieved =
    (sortByScoreDesc (fun r => r.score)
      (VectorStoreService.search exSim (exEmbedQuery "q") ["r1"] none
         (RetrievalService.effTopK (some 3) {}) (Settings.min_relevance_score {})
         (RetrievalService.query exSim exEmbedQuery exEmbedDocs exLlm exSplitter exIds "t"
           "ts" {} "q" ["r1"] none (some 3) (some "c1") true none exStore).store ++
       VectorStoreService.search_by_conversation exSim (exEmbedQuery "q") "c1"
         (RetrievalService.effTopK (some 3) {}) (Settings.min_relevance_score {})
         (RetrievalService.query exSim exEmbedQuery exEmbedDocs exLlm exSplitter exIds "t"
           "ts" {} "q" ["r1"] none (some 3) (some "c1") true none exStore).store)).take
      (RetrievalService.effTopK (some 3) {}) :=
  ⟨by decide,
   c2_dual_merge_by_score.1 exSim exEmbedQuery exEmbedDocs exLlm exSplitter exIds "t" "ts"
     {} "q" ["r1"] none (some 3) "c1" none exStore (by decide)⟩

/-- Claim C5: when the (possibly merged) retrieved set is empty, the
orchestrator returns the fixed no-relevant-information answer with an empty
source list and `chunks_retrieved = 0`, and makes zero calls to the answer
generator. -/
theorem c5_empty_result_short_circuit (sim : List ℚ → List ℚ → ℚ) (eq : String → List ℚ)
    (ed : List Text → List (List ℚ)) (llm : String → List SearchResult → String)
    (sp : Text → List Text) (ids : Nat → String) (ttl ts : String) (settings : Settings)
    (q : String) (rooms : List String) (cfid : Option String) (topk : Option Nat)
    (cid : Option String) (hva : Bool) (ar : Option AttachmentResult) (store : Store)
    (h : (RetrievalService.query sim eq ed llm sp ids ttl ts settings q rooms cfid topk cid
      hva ar store).retrieved = []) :
    (RetrievalService.query sim eq ed llm sp ids ttl ts settings q rooms cfid topk cid hva
      ar store).response.answer = RetrievalService.noRelevantAnswer ∧
    (RetrievalService.query sim eq ed llm sp ids ttl ts settings q rooms cfid topk cid hva
      ar store).response.sources = [] ∧
    (RetrievalService.query sim eq ed llm sp ids ttl ts settings q rooms cfid topk cid hva
      ar store).response.chunks_retrieved = 0 ∧
    (RetrievalService.query sim eq ed llm sp ids ttl ts settings q rooms cfid topk cid hva
      ar store).llm_calls = 0 := by
  rw [query_retrieved_eq] at h
  simp only [RetrievalService.query]
  rw [if_pos h]
  exact ⟨rfl, rfl, rfl, rfl⟩

/-- Witness for C5 on an empty store. -/
theorem c5_empty_result_short_circuit_witness :
    ((RetrievalService.query exSim exEmbedQuery exEmbedDocs exLlm exSplitter exIds "t" "ts"
       {} "q" ["r1"] none none none false none []).retrieved = []) ∧
    ((RetrievalService.query exSim exEmbedQuery exEmbedDocs exLlm exSplitter exIds "t" "ts"
       {} "q" ["r1"] none none none false none []).response.answer =
      RetrievalService.noRelevantAnswer ∧
     (RetrievalService.query exSim exEmbedQuery exEmbedDocs exLlm exSplitter exIds "t" "ts"
       {} "q" ["r1"] none none none false none []).response.sources = [] ∧
     (RetrievalService.query exSim exEmbedQuery exEmbedDocs exLlm exSplitter exIds "t" "ts"
       {} "q" ["r1"] none none none false none []).response.chunks_retrieved = 0 ∧
     (RetrievalService.query exSim exEmbedQuery exEmbedDocs exLlm exSplitter exIds "t" "ts"
       {} "q" ["r1"] none none none false none []).llm_calls = 0) :=
  ⟨by decide,
   c5_empty_result_short_circuit exSim exEmbedQuery exEmbedDocs exLlm exSplitter exIds "t"
     "ts" {} "q" ["r1"] none none none false none [] (by decide)⟩

/-- Claim C4 (amended): the streaming variant does NOT replicate the
dual-retrieval pipeline: it ignores its attachment flags entirely (its events
are identical for any `conversation_id` / `has_vector_attachment` values) and
always performs only the room-scoped search with no attachment side-effect;
its emitted source list coincides with the non-streaming query's retrieved
set exactly in the no-attachment configuration, and it emits ordered events
instead of one return value. -/
theorem c4_stream_room_search_only :
    (∀ (sim : List ℚ → List ℚ → ℚ) (eq : String → List ℚ)
       (ls : String → List SearchResult → List String) (settings : Settings)
       (q : String) (rooms : List String) (cfid : Option String) (topk : Option Nat)
       (cid cid' : Option String) (hva hva' : Bool) (store : Store),
      RetrievalService.query_stream sim eq ls settings q rooms cfid topk cid hva store =
      RetrievalService.query_stream sim eq ls settings q rooms cfid topk cid' hva' store) ∧
    (∀ (sim : List ℚ → List ℚ → ℚ) (eq : String → List ℚ)
       (ls : String → List SearchResult → List String)
       (ed : List Text → List (List ℚ)) (llm : String → List SearchResult → String)
       (sp : Text → List Text) (ids : Nat → String) (ttl ts : String)
       (settings : Settings) (q : String) (rooms : List String) (cfid : Option String)
       (topk : Option Nat) (cid : Option String) (hva : Bool) (store : Store),
      RetrievalService.streamSources
        (RetrievalService.query_stream sim eq ls settings q rooms cfid topk cid hva store) =
      (RetrievalService.query sim eq ed llm sp ids ttl ts settings q rooms cfid topk none
        false none store).retrieved.map RetrievalService.toStreamSource) := by
  constructor
  · intro sim eq ls settings q rooms cfid topk cid cid' hva hva' store
    rfl
  · intro sim eq ls ed llm sp ids ttl ts settings q rooms cfid topk cid hva store
    rw [query_retrieved_eq]
    have hfl : RetrievalService.flowTwoPhase ed sp ids ttl ts none none store =
      (0, store) := rfl
    rw [hfl]
    have hsp : RetrievalService.searchPhase sim (eq q) rooms cfid
        (RetrievalService.effTopK topk settings) settings.min_relevance_score none false
        store =
      VectorStoreService.search sim (eq q) rooms cfid
        (RetrievalService.effTopK topk settings) settings.min_relevance_score store := rfl
    rw [hsp]
    simp only [RetrievalService.query_stream]
    split
    · rename_i h
      rw [h]
      rfl
    · simp [RetrievalService.streamSources]

/-- Counterexample to claim C4: at a store holding both room content and
conversation-attachment vectors, with `has_vector_attachment = true` and a
conversation id present, the streaming variant's emitted sources differ from
the non-streaming query's retrieved set on the same inputs — the streaming
path skips the conversation-scoped search. -/
theorem c4_claim_counterexample :
    ¬ (RetrievalService.streamSources
        (RetrievalService.query_stream exSim exEmbedQuery exLlmStream {} "q" ["r1"] none
          (some 3) (some "c1") true exStore) =
       (RetrievalService.query exSim exEmbedQuery exEmbedDocs exLlm exSplitter exIds "t"
         "ts" {} "q" ["r1"] none (some 3) (some "c1") true none exStore).retrieved.map
         RetrievalService.toStreamSource) := by
  decide

/-- Helper: a successful `store_chunks` call adds exactly `n` vectors for the
file id on top of the existing ones. -/
theorem store_chunks_ok_count {chunks : List TextChunk} {emb : List (List ℚ)}
    {rid fid ty : String} {ids : Nat → String} {ts : String} {st : Store} {n : Nat}
    {st' : Store}
    (h : VectorStoreService.store_chunks chunks emb rid fid ty ids ts st = .ok (n, st')) :
    countFile fid st' = countFile fid st + n := by
  unfold VectorStoreService.store_chunks at h
  split at h
  · exact absurd h (by simp)
  · split at h
    · rw [Except.ok.injEq, Prod.mk.injEq] at h
      obtain ⟨hn, hst⟩ := h
      rw [← hn, ← hst]
      simp
    · rw [Except.ok.injEq, Prod.mk.injEq] at h
      obtain ⟨hn, hst⟩ := h
      rw [← hst, ← hn]
      unfold countFile
      rw [List.filter_append, List.length_append]
      have hall : ((chunks.zip emb).enum.map fun ie =>
          ({ id := ids ie.1, vector := ie.2.2,
             payload := { room_id := some rid, file_id := some fid,
                          document_type := some ty,
                          chunk_index := some ie.2.1.chunk_index,
                          total_chunks := some ie.2.1.total_chunks,
                          section_title := ie.2.1.section_title,
                          char_count := some ie.2.1.char_count,
                          content := some ie.2.1.content,
                          timestamp := some ts } } : Point)).filter
            (fun pt => decide (pt.payload.file_id = some fid)) =
          ((chunks.zip emb).enum.map fun ie =>
          ({ id := ids ie.1, vector := ie.2.2,
             payload := { room_id := some rid, file_id := some fid,
                          document_type := some ty,
                          chunk_index := some ie.2.1.chunk_index,
                          total_chunks := some ie.2.1.total_chunks,
                          section_title := ie.2.1.section_title,
                          char_count := some ie.2.1.char_count,
                          content := some ie.2.1.content,
                          timestamp := some ts } } : Point)) := by
        rw [List.filter_eq_self]
        intro pt hpt
        rw [List.mem_map] at hpt
        obtain ⟨ie, -, rfl⟩ := hpt
        simp
      rw [hall]

/-- Helper: a successful `store_chunks` call reports one stored vector per
chunk. -/
theorem store_chunks_ok_n {chunks : List TextChunk} {emb : List (List ℚ)}
    {rid fid ty : String} {ids : Nat → String} {ts : String} {st : Store} {n : Nat}
    {st' : Store}
    (h : VectorStoreService.store_chunks chunks emb rid fid ty ids ts st = .ok (n, st')) :
    n = chunks.length := by
  unfold VectorStoreService.store_chunks at h
  split at h
  · exact absurd h (by simp)
  · rename_i hlen
    rw [not_not] at hlen
    split at h
    · rename_i hnil
      rw [Except.ok.injEq, Prod.mk.injEq] at h
      rw [← h.1, hnil]
      rfl
    · rw [Except.ok.injEq, Prod.mk.injEq] at h
      rw [← h.1]
      simp [List.enum_length, List.length_zip, hlen]

/-- Helper: after `delete_file` no vector for the file id remains. -/
theorem delete_file_countFile_zero (fid : String) (st : Store) :
    countFile fid (VectorStoreService.delete_file fid st).2 = 0 := by
  unfold countFile VectorStoreService.delete_file
  simp only [List.filter_filter]
  rw [List.length_eq_zero, List.filter_eq_nil_iff]
  intro pt hpt
  simp

/-- Helper: a successful synchronous ingest leaves exactly one stored vector
per chunk of the extracted text for the file id. -/
theorem ingest_document_ok_spec {E : List Nat → Except String Text}
    {sp : Text → List Text} {ed : List Text → Except String (List (List ℚ))}
    {ids : Nat → String} {ts : String} {settings : Settings} {content : List Nat}
    {rid fid ty : String} {store : Store} {resp : IngestResponse} {store' : Store}
    (h : ingest_document E sp ed ids ts settings content rid fid ty store =
      (.ok resp, store')) :
    countFile fid store' = resp.chunks_created ∧
    ∃ text, E content = .ok text ∧
      resp.chunks_created = (ChunkingService.chunk_text sp text).length := by
  simp only [ingest_document] at h
  split at h
  · exact absurd h (by simp)
  · split at h
    · exact absurd h (by simp)
    · split at h
      · exact absurd h (by simp)
      · rename_i text heqE
        split at h
        · exact absurd h (by simp)
        · split at h
          · exact absurd h (by simp)
          · split at h
            · exact absurd h (by simp)
            · rename_i embs heqEd
              split at h
              · exact absurd h (by simp)
              · rename_i cs store2 heqSC
                rw [Prod.mk.injEq, Except.ok.injEq] at h
                obtain ⟨hresp, hst⟩ := h
                subst hst
                refine ⟨?_, text, heqE, ?_⟩
                · rw [← hresp]
                  have hcnt := store_chunks_ok_count heqSC
                  rw [delete_file_countFile_zero] at hcnt
                  simpa using hcnt
                · rw [← hresp]
                  exact store_chunks_ok_n heqSC

/-- Helper: a completed background S3 ingest leaves exactly one stored vector
per chunk of the text extracted from the downloaded content. -/
theorem process_s3_completed_spec {D : Except String (List Nat)}
    {E : List Nat → Except String Text} {sp : Text → List Text}
    {ed : List Text → Except String (List (List ℚ))} {ids : Nat → String} {ts : String}
    {settings : Settings} {rid fid ty : String} {store : Store} {rec : StatusRecord}
    {store' : Store}
    (h : process_s3_document D E sp ed ids ts settings rid fid ty store = (rec, store'))
    (hc : rec.status = .completed) :
    ∃ content text, D = .ok content ∧ E content = .ok text ∧
      countFile fid store' = (ChunkingService.chunk_text sp text).length ∧
      rec.chunks_created = some (ChunkingService.chunk_text sp text).length := by
  cases D with
  | error e =>
    simp only [process_s3_document] at h
    rw [Prod.mk.injEq] at h
    rw [← h.1] at hc
    simp at hc
  | ok content =>
    simp only [process_s3_document] at h
    split at h
    · rw [Prod.mk.injEq] at h
      rw [← h.1] at hc
      simp at hc
    · split at h
      · rw [Prod.mk.injEq] at h
        rw [← h.1] at hc
        simp at hc
      · split at h
        · rw [Prod.mk.injEq] at h
          rw [← h.1] at hc
          simp at hc
        · rename_i text heqE
          split at h
          · rw [Prod.mk.injEq] at h
            rw [← h.1] at hc
            simp at hc
          · split at h
            · rw [Prod.mk.injEq] at h
              rw [← h.1] at hc
              simp at hc
            · split at h
              · rw [Prod.mk.injEq] at h
                rw [← h.1] at hc
                simp at hc
              · rename_i embs heqEd
                split at h
                · rw [Prod.mk.injEq] at h
                  rw [← h.1] at hc
                  simp at hc
                · rename_i cs store2 heqSC
                  rw [Prod.mk.injEq] at h
                  obtain ⟨hrec, hst⟩ := h
                  subst hst
                  have hn := store_chunks_ok_n heqSC
                  have hcnt := store_chunks_ok_count heqSC
                  rw [delete_file_countFile_zero] at hcnt
                  refine ⟨content, text, rfl, heqE, ?_, ?_⟩
                  · rw [hcnt, ← hn]
                    omega
                  · rw [← hrec, ← hn]

/-- Claim C3: ingesting a `file_id` deletes all previously stored vectors for it
before writing the new ones, so ingesting the same `file_id` twice with the
same content leaves the same number of stored vectors for it as ingesting
once — on both the synchronous route and the background S3 route. -/
theorem c3_reingestion_replaces :
    (∀ (E : List Nat → Except String Text) (sp : Text → List Text)
       (ed : List Text → Except String (List (List ℚ))) (ids : Nat → String) (ts : String)
       (settings : Settings) (content : List Nat) (rid fid ty : String)
       (store s1 s2 : Store) (r1 r2 : IngestResponse),
      ingest_document E sp ed ids ts settings content rid fid ty store = (.ok r1, s1) →
      ingest_document E sp ed ids ts settings content rid fid ty s1 = (.ok r2, s2) →
      countFile fid s2 = countFile fid s1) ∧
    (∀ (D : Except String (List Nat)) (E : List Nat → Except String Text)
       (sp : Text → List Text) (ed : List Text → Except String (List (List ℚ)))
       (ids : Nat → String) (ts : String) (settings : Settings) (rid fid ty : String)
       (store s1 s2 : Store) (rec1 rec2 : StatusRecord),
      process_s3_document D E sp ed ids ts settings rid fid ty store = (rec1, s1) →
      rec1.status = .completed →
      process_s3_document D E sp ed ids ts settings rid fid ty s1 = (rec2, s2) →
      rec2.status = .completed →
      countFile fid s2 = countFile fid s1) := by
  constructor
  · intro E sp ed ids ts settings content rid fid ty store s1 s2 r1 r2 h1 h2
    obtain ⟨hc1, t1, he1, hn1⟩ := ingest_document_ok_spec h1
    obtain ⟨hc2, t2, he2, hn2⟩ := ingest_document_ok_spec h2
    rw [he1, Except.ok.injEq] at he2
    subst he2
    rw [hc1, hc2, hn1, hn2]
  · intro D E sp ed ids ts settings rid fid ty store s1 s2 rec1 rec2 h1 hc1 h2 hc2
    obtain ⟨c1, t1, hd1, he1, hcount1, -⟩ := process_s3_completed_spec h1 hc1
    obtain ⟨c2, t2, hd2, he2, hcount2, -⟩ := process_s3_completed_spec h2 hc2
    rw [hd1, Except.ok.injEq] at hd2
    subst hd2
    rw [he1, Except.ok.injEq] at he2
    subst he2
    rw [hcount1, hcount2]

/-- Witness for C3: a concrete document ingested twice, on both routes. -/
theorem c3_reingestion_replaces_witness :
    (ingest_document exExtract exSplitter exEmbedDocsE exIds "ts" {} [65] "r1" "f1" "pdf" []
      = (.ok { success := true, file_id := "f1", room_id := "r1", chunks_created := 1,
               message := "Successfully processed document with 1 chunks" },
         [{ id := "0", vector := [1],
            payload := { room_id := some "r1", file_id := some "f1",
                         document_type := some "pdf", chunk_index := some 0,
                         total_chunks := some 1, char_count := some 5,
                         content := some "hello".toList, timestamp := some "ts" } }])) ∧
    (ingest_document exExtract exSplitter exEmbedDocsE exIds "ts" {} [65] "r1" "f1" "pdf"
      [{ id := "0", vector := [1],
         payload := { room_id := some "r1", file_id := some "f1",
                      document_type := some "pdf", chunk_index := some 0,
                      total_chunks := some 1, char_count := some 5,
                      content := some "hello".toList, timestamp := some "ts" } }]
      = (.ok { success := true, file_id := "f1", room_id := "r1", chunks_created := 1,
               message := "Successfully processed document with 1 chunks" },
         [{ id := "0", vector := [1],
            payload := { room_id := some "r1", file_id := some "f1",
                         document_type := some "pdf", chunk_index := some 0,
                         total_chunks := some 1, char_count := some 5,
                         content := some "hello".toList, timestamp := some "ts" } }])) ∧
    countFile "f1"
      [{ id := "0", vector := [1],
         payload := { room_id := some "r1", file_id := some "f1",
                      document_type := some "pdf", chunk_index := some 0,
                      total_chunks := some 1, char_count := some 5,
                      content := some "hello".toList, timestamp := some "ts" } }] =
    countFile "f1"
      [{ id := "0", vector := [1],
         payload := { room_id := some "r1", file_id := some "f1",
                      document_type := some "pdf", chunk_index := some 0,
                      total_chunks := some 1, char_count := some 5,
                      content := some "hello".toList, timestamp := some "ts" } }] :=
  ⟨by decide, by decide,
   c3_reingestion_replaces.1 exExtract exSplitter exEmbedDocsE exIds "ts" {} [65] "r1" "f1"
     "pdf" []
     [{ id := "0", vector := [1],
        payload := { room_id := some "r1", file_id := some "f1",
                     document_type := some "pdf", chunk_index := some 0,
                     total_chunks := some 1, char_count := some 5,
                     content := some "hello".toList, timestamp := some "ts" } }]
     [{ id := "0", vector := [1],
        payload := { room_id := some "r1", file_id := some "f1",
                     document_type := some "pdf", chunk_index := some 0,
                     total_chunks := some 1, char_count := some 5,
                     content := some "hello".toList, timestamp := some "ts" } }]
     { success := true, file_id := "f1", room_id := "r1", chunks_created := 1,
       message := "Successfully processed document with 1 chunks" }
     { success := true, file_id := "f1", room_id := "r1", chunks_created := 1,
       message := "Successfully processed document with 1 chunks" }
     (by decide) (by decide)⟩

/-- Claim C9: whenever any ingestion step before vector storage fails (size
check, empty file, extraction, no chunks, or the embedding call), the
operation reports an error (or records a failed status) and the vector store
is left untouched — the delete of existing vectors happens only after
embedding succeeds. -/
theorem c9_prewrite_failure_leaves_store :
    (∀ (E : List Nat → Except String Text) (sp : Text → List Text)
       (ed : List Text → Except String (List (List ℚ))) (ids : Nat → String) (ts : String)
       (settings : Settings) (content : List Nat) (rid fid ty : String) (store : Store),
      ¬ ingestPrefixOk E sp ed settings content →
      (ingest_document E sp ed ids ts settings content rid fid ty store).2 = store ∧
      ∃ e, (ingest_document E sp ed ids ts settings content rid fid ty store).1 =
        .error e) ∧
    (∀ (D : Except String (List Nat)) (E : List Nat → Except String Text)
       (sp : Text → List Text) (ed : List Text → Except String (List (List ℚ)))
       (ids : Nat → String) (ts : String) (settings : Settings) (rid fid ty : String)
       (store : Store),
      (∀ content, D = .ok content → ¬ ingestPrefixOk E sp ed settings content) →
      (process_s3_document D E sp ed ids ts settings rid fid ty store).2 = store ∧
      (process_s3_document D E sp ed ids ts settings rid fid ty store).1.status =
        .failed) := by
  constructor
  · intro E sp ed ids ts settings content rid fid ty store hnot
    simp only [ingest_document]
    split
    · exact ⟨rfl, _, rfl⟩
    · rename_i h1
      split
      · exact ⟨rfl, _, rfl⟩
      · rename_i h2
        split
        · exact ⟨rfl, _, rfl⟩
        · rename_i text heqE
          split
          · exact ⟨rfl, _, rfl⟩
          · rename_i h4
            split
            · exact ⟨rfl, _, rfl⟩
            · rename_i h5
              split
              · exact ⟨rfl, _, rfl⟩
              · rename_i embs heqEd
                exact absurd
                  ⟨Nat.not_lt.mp h1, h2, text, heqE, h4, h5, embs, heqEd⟩ hnot
  · intro D E sp ed ids ts settings rid fid ty store hnot
    cases D with
    | error e => exact ⟨rfl, rfl⟩
    | ok content =>
      have hnc := hnot content rfl
      simp only [process_s3_document]
      split
      · exact ⟨rfl, rfl⟩
      · rename_i h1
        split
        · exact ⟨rfl, rfl⟩
        · rename_i h2
          split
          · exact ⟨rfl, rfl⟩
          · rename_i text heqE
            split
            · exact ⟨rfl, rfl⟩
            · rename_i h4
              split
              · exact ⟨rfl, rfl⟩
              · rename_i h5
                split
                · exact ⟨rfl, rfl⟩
                · rename_i embs heqEd
                  exact absurd
                    ⟨Nat.not_lt.mp h1, h2, text, heqE, h4, h5, embs, heqEd⟩ hnc

/-- Witness for C9: an empty file on the synchronous route and a failing
download on the S3 route. -/
theorem c9_prewrite_failure_leaves_store_witness :
    (¬ ingestPrefixOk exExtract exSplitter exEmbedDocsE {} ([] : List Nat)) ∧
    ((ingest_document exExtract exSplitter exEmbedDocsE exIds "ts" {} [] "r1" "f1" "pdf"
        []).2 = [] ∧
      ∃ e, (ingest_document exExtract exSplitter exEmbedDocsE exIds "ts" {} [] "r1" "f1"
        "pdf" []).1 = .error e) ∧
    ((process_s3_document (.error "boom") exExtract exSplitter exEmbedDocsE exIds "ts" {}
        "r1" "f1" "pdf" []).2 = [] ∧
     (process_s3_document (.error "boom") exExtract exSplitter exEmbedDocsE exIds "ts" {}
        "r1" "f1" "pdf" []).1.status = .failed) :=
  ⟨fun hp => hp.2.1 rfl,
   c9_prewrite_failure_leaves_store.1 exExtract exSplitter exEmbedDocsE exIds "ts" {} []
     "r1" "f1" "pdf" [] (fun hp => hp.2.1 rfl),
   c9_prewrite_failure_leaves_store.2 (.error "boom") exExtract exSplitter exEmbedDocsE
     exIds "ts" {} "r1" "f1" "pdf" [] (fun _ h => nomatch h)⟩
